import Mathlib

/-!
# Verification of the StackSet drift-detection outcome evaluator

A shallow embedding of `src/lib/lambda/evaluation.py` (the outcome-evaluation
Lambda of the `stackset-drift-detection` repository), together with theorems
settling the specification claims about it.

The embedding models:
* Python `str.split(sep)` for a non-empty separator (`pySplit`), used by the
  handler to extract the StackSet name from the `stack-set-arn` field;
* the incoming EventBridge completion event as a record of optional fields
  (a missing dictionary key in the Python code raises `KeyError`, modelled as
  `Option.none` flowing into an error result);
* the `DescribeStackSetOperation` response (`OperationDetails`) with its
  optional `StackSetDriftDetectionDetails` substructure;
* `json.dumps(..., default=str)` over a small model of Python values
  (`PyVal`), distinguishing JSON-primitive values from non-primitive ones
  such as `datetime` timestamps;
* the handler itself (`lambda_handler`), parameterised by the outcome of the
  CloudFormation query and of the SNS publish call, returning the ordered
  list of publish attempts it makes together with its final outcome.
-/

namespace DriftEval

/-! ## Python `str.split` for a non-empty separator

`pySplitF` is a fuel-indexed, structurally recursive rendering of the
left-to-right, non-overlapping scan performed by Python's `str.split(sep)`
(`sep` non-empty).  `pySplit` instantiates the fuel with the length of the
input, which is always sufficient. -/

def pySplitF (sep : List Char) : Nat → List Char → List (List Char)
  | 0, l => [l]
  | _ + 1, [] => [[]]
  | fuel + 1, c :: cs =>
    if sep.isPrefixOf (c :: cs) then
      [] :: pySplitF sep fuel ((c :: cs).drop sep.length)
    else
      match pySplitF sep fuel cs with
      | [] => [[c]]
      | p :: ps => (c :: p) :: ps

/-- Python `l.split(sep)` for a non-empty separator `sep`. -/
def pySplit (sep l : List Char) : List (List Char) :=
  pySplitF sep l.length l

/-- Python's `sub in s` substring test, specialised to lists of characters. -/
def hasSub (pat : List Char) : List Char → Bool
  | [] => pat.isEmpty
  | c :: cs => pat.isPrefixOf (c :: cs) || hasSub pat cs

/-- The suffix of `l` after the first occurrence of `sep`, if any. -/
def afterFirst (sep : List Char) : List Char → Option (List Char)
  | [] => none
  | c :: cs =>
    if sep.isPrefixOf (c :: cs) then some ((c :: cs).drop sep.length)
    else afterFirst sep cs

/-! ## A model of Python values and `json.dumps(..., default=str)`

`publish_to_topic` serializes its message with
`json.dumps({"default": message}, default=str)`.  The response dictionary
returned by `DescribeStackSetOperation` contains non-JSON-primitive values
(`datetime` timestamps such as `CreationTimestamp`); plain `json.dumps`
raises `TypeError` on those, while `default=str` stringifies them.  `PyVal`
models such dictionaries and `json_dumps` models both serialization modes
(`defaultStr = true` for `default=str`). -/

mutual

inductive PyVal where
  | pynull : PyVal
  | pybool : Bool → PyVal
  | pyint : Int → PyVal
  | pystr : String → PyVal
  | pydatetime : String → PyVal
  | pyobj : PyFields → PyVal

inductive PyFields where
  | nil : PyFields
  | cons : String → PyVal → PyFields → PyFields

end

/-- A JSON string literal (escaping is irrelevant to the claims and omitted). -/
def jsonQuote (s : String) : String := "\"" ++ s ++ "\""

mutual

def dumpsVal (defaultStr : Bool) : PyVal → Option String
  | .pynull => some "null"
  | .pybool b => some (if b then "true" else "false")
  | .pyint n => some (toString n)
  | .pystr s => some (jsonQuote s)
  | .pydatetime s => if defaultStr then some (jsonQuote s) else none
  | .pyobj fs =>
    match dumpsFields defaultStr fs with
    | some body => some ("\x7b" ++ body ++ "\x7d")
    | none => none

def dumpsFields (defaultStr : Bool) : PyFields → Option String
  | .nil => some ""
  | .cons k v rest =>
    match dumpsVal defaultStr v, dumpsFields defaultStr rest with
    | some sv, some sr => some (jsonQuote k ++ ": " ++ sv ++ ", " ++ sr)
    | _, _ => none

end

/-! ## The data model

The `DescribeStackSetOperation` response (`operation_details` in the code) and
the incoming EventBridge completion event.  A Python dictionary key that may
be absent (read with `.get` or whose absence the claims are about) is an
`Option` field; reading an absent mandatory key raises `KeyError`. -/

/-- The `StackSetDriftDetectionDetails` substructure of the operation. -/
structure DriftDetectionDetails where
  DriftStatus : Option String
  DriftDetectionStatus : Option String
  TotalStackInstancesCount : Option Int
  DriftedStackInstancesCount : Option Int
deriving DecidableEq

/-- The `StatusDetails` substructure of the operation. -/
structure OperationStatusDetails where
  FailedStackInstancesCount : Option Int
deriving DecidableEq

/-- The `StackSetOperation` member of the `DescribeStackSetOperation`
response.  `Status` is always present in the response; the
`StackSetDriftDetectionDetails` key may be absent (its read on line 42 of
`evaluation.py` is a plain indexing that raises `KeyError` when absent).
The timestamps are `datetime` values, kept as their ISO rendering. -/
structure OperationDetails where
  Status : String
  StatusReason : Option String
  StackSetDriftDetectionDetails : Option DriftDetectionDetails
  StatusDetails : Option OperationStatusDetails
  CreationTimestamp : Option String
  EndTimestamp : Option String
deriving DecidableEq

/-- The `detail` member of the completion event. -/
structure EventDetail where
  stackSetArn : Option String
  operationId : Option String
deriving DecidableEq

/-- The incoming EventBridge completion event. -/
structure Event where
  detail : Option EventDetail
deriving DecidableEq

/-- An optional dictionary entry: present keys are emitted, absent ones not. -/
def optField (k : String) (v : Option PyVal) (rest : PyFields) : PyFields :=
  match v with
  | none => rest
  | some pv => PyFields.cons k pv rest

/-- The `StackSetDriftDetectionDetails` dictionary as a Python value. -/
def dddToPyVal (d : DriftDetectionDetails) : PyVal :=
  PyVal.pyobj
    (optField "DriftStatus" (d.DriftStatus.map PyVal.pystr)
      (optField "DriftDetectionStatus" (d.DriftDetectionStatus.map PyVal.pystr)
        (optField "TotalStackInstancesCount"
          (d.TotalStackInstancesCount.map PyVal.pyint)
          (optField "DriftedStackInstancesCount"
            (d.DriftedStackInstancesCount.map PyVal.pyint) PyFields.nil))))

/-- The `StatusDetails` dictionary as a Python value. -/
def sdToPyVal (d : OperationStatusDetails) : PyVal :=
  PyVal.pyobj
    (optField "FailedStackInstancesCount"
      (d.FailedStackInstancesCount.map PyVal.pyint) PyFields.nil)

/-- The full `operation_details` dictionary as a Python value: this is the
message body handed to `publish_to_topic`. -/
def toPyVal (od : OperationDetails) : PyVal :=
  PyVal.pyobj
    (PyFields.cons "Status" (PyVal.pystr od.Status)
      (optField "StatusReason" (od.StatusReason.map PyVal.pystr)
        (optField "CreationTimestamp" (od.CreationTimestamp.map PyVal.pydatetime)
          (optField "EndTimestamp" (od.EndTimestamp.map PyVal.pydatetime)
            (optField "StackSetDriftDetectionDetails"
              (od.StackSetDriftDetectionDetails.map dddToPyVal)
              (optField "StatusDetails" (od.StatusDetails.map sdToPyVal)
                PyFields.nil))))))

/-! ## The handler -/

/-- The ways an invocation of the handler can fail.  `malformedEvent` covers
the `KeyError`/`IndexError` raised while reading the event (lines 27-30),
`keyError` the `KeyError` raised by the mandatory
`StackSetDriftDetectionDetails` read (line 42), `queryError` a failing
`DescribeStackSetOperation` call, and `notificationError` a failing SNS
publish. -/
inductive EvalError where
  | malformedEvent : EvalError
  | keyError : EvalError
  | queryError : String → EvalError
  | notificationError : String → EvalError
deriving DecidableEq

/-- One attempted SNS publish: its subject and its (pre-serialization)
message dictionary. -/
structure Publish where
  subject : String
  message : PyVal

/-- The observable behaviour of one handler invocation: the ordered list of
publish attempts it made, and either success (`none`) or the error it raised. -/
structure HandlerResult where
  attempts : List Publish
  outcome : Option EvalError

/-- The marker token `":stackset/"` of line 29, as characters. -/
def stacksetMarker : List Char := (":stackset/").toList

/-- The secondary delimiter `":"` of line 29, as characters. -/
def colonSep : List Char := (":").toList

/-- Line 29 of `evaluation.py`:
`stackset_arn.split(":stackset/")[1].split(":")[0]`.  The `[1]` raises
`IndexError` (here `none`) when the marker does not occur; the `[0]` always
succeeds since `split` never returns an empty list. -/
def extract_stackset_name (arn : String) : Option String :=
  match pySplit stacksetMarker arn.toList with
  | _ :: second :: _ => some (String.mk ((pySplit colonSep second).headD []))
  | _ => none

/-- Lines 27-30 of `evaluation.py`: read `detail`, `stack-set-arn`, the
extracted StackSet name, and `stack-set-operation-id`; any missing piece
aborts the invocation. -/
def interpret_event (event : Event) : Option (String × String) :=
  match event.detail with
  | none => none
  | some d =>
    match d.stackSetArn with
    | none => none
    | some arn =>
      match extract_stackset_name arn with
      | none => none
      | some stackset_name =>
        match d.operationId with
        | none => none
        | some opId => some (stackset_name, opId)

/-- `publish_to_topic` (lines 16-21): serialize
`{"default": message}` with `default=str` and hand it to the SNS client,
whose outcome for this invocation is `pubResult`. -/
def publish_to_topic (pubResult : Except String Unit) (_subject : String)
    (message : PyVal) : Except String Unit :=
  match dumpsVal true (PyVal.pyobj (PyFields.cons "default" message PyFields.nil)) with
  | some _ => pubResult
  | none => Except.error "TypeError: Object is not JSON serializable"

def errorSubject (stackset_name : String) : String :=
  "ERROR: StackSet " ++ stackset_name ++ " drift detection failed"

def driftedSubject (stackset_name : String) : String :=
  "DRIFTED: StackSet " ++ stackset_name ++ " is in the drifted state"

/-- `lambda_handler` (lines 24-91), parameterised by the behaviour of its two
collaborators: `query` models `cfn_client.describe_stack_set_operation`
(returning the `StackSetOperation` member or raising), and `pubResult` models
the outcome of the single `sns_client.publish` call this invocation can make. -/
def lambda_handler (query : String → String → Except String OperationDetails)
    (pubResult : Except String Unit) (event : Event) : HandlerResult :=
  match interpret_event event with
  | none => ⟨[], some EvalError.malformedEvent⟩
  | some (stackset_name, stackset_operation_id) =>
    match query stackset_name stackset_operation_id with
    | Except.error e => ⟨[], some (EvalError.queryError e)⟩
    | Except.ok operation_details =>
      match operation_details.StackSetDriftDetectionDetails with
      | none => ⟨[], some EvalError.keyError⟩
      | some drift_details =>
        if operation_details.Status ∈ ["FAILED", "STOPPED"] then
          let subject := errorSubject stackset_name
          match publish_to_topic pubResult subject (toPyVal operation_details) with
          | Except.error e =>
            ⟨[⟨subject, toPyVal operation_details⟩],
              some (EvalError.notificationError e)⟩
          | Except.ok _ => ⟨[⟨subject, toPyVal operation_details⟩], none⟩
        else if drift_details.DriftStatus ≠ some "IN_SYNC" then
          let subject := driftedSubject stackset_name
          match publish_to_topic pubResult subject (toPyVal operation_details) with
          | Except.error e =>
            ⟨[⟨subject, toPyVal operation_details⟩],
              some (EvalError.notificationError e)⟩
          | Except.ok _ => ⟨[⟨subject, toPyVal operation_details⟩], none⟩
        else ⟨[], none⟩

/-- The classification implicit in the handler's branch structure: the first
branch (lines 46-65) is `OPERATION_FAILED`, the second (lines 67-85) is the
drift branch, and the fall-through (lines 87-91) publishes nothing. -/
inductive Classification where
  | OPERATION_FAILED : Classification
  | DRIFT_DETECTED : Classification
  | CLEAN : Classification
deriving DecidableEq

/-- Which branch of the handler runs for given operation details (with the
drift-details substructure present, as required to reach the branches). -/
def classify (od : OperationDetails) (ddd : DriftDetectionDetails) :
    Classification :=
  if od.Status ∈ ["FAILED", "STOPPED"] then Classification.OPERATION_FAILED
  else if ddd.DriftStatus ≠ some "IN_SYNC" then Classification.DRIFT_DETECTED
  else Classification.CLEAN

/-- Running the handler over a sequence of delivered events, collecting every
publish attempt: invocations are independent, so this is a plain map. -/
def invokeAll (query : String → String → Except String OperationDetails)
    (pubResult : Except String Unit) (events : List Event) : List Publish :=
  (events.map (fun e => (lambda_handler query pubResult e).attempts)).flatten

/-- String containment, as Python's `sub in s`. -/
def strContains (s pat : String) : Bool := hasSub pat.toList s.toList

/-- Modelled from the spec: the documented compound `targetReference` format,
in which the collection name is "the path segment following the known marker
token (`:stackset/`) and terminated by the next occurrence of the secondary
delimiter (`:`)".  A reference matches when the marker occurs and the text
after its first occurrence contains the secondary delimiter.  This definition
follows the spec's words and exists only to be compared with the code's
`extract_stackset_name`. -/
def spec_compound_format (arn : String) : Bool :=
  match afterFirst stacksetMarker arn.toList with
  | some r => r.contains ':'
  | none => false

/-- The outcome of the single publish the handler can make. -/
def pubOutcome (p : Except String Unit) : Option EvalError :=
  match p with
  | Except.ok _ => none
  | Except.error e => some (EvalError.notificationError e)

/-! ## Concrete inputs shared by witnesses and counterexamples -/

def sampleArn : String :=
  "arn:aws:cloudformation:eu-west-1:123456789012:stackset/demo:3f1a"

def sampleEvent : Event := ⟨some ⟨some sampleArn, some "3f1a"⟩⟩

/-- A query collaborator that always returns the given operation details. -/
def queryReturning (od : OperationDetails) :
    String → String → Except String OperationDetails :=
  fun _ _ => Except.ok od

/-- A query collaborator that always fails with the given error. -/
def queryFailing (e : String) :
    String → String → Except String OperationDetails :=
  fun _ _ => Except.error e

def odInSync : OperationDetails :=
  ⟨"SUCCEEDED", none, some ⟨some "IN_SYNC", some "COMPLETED", some 4, some 0⟩,
    none, some "2024-05-01T00:00:00", some "2024-05-01T00:05:00"⟩

def odDrifted : OperationDetails :=
  ⟨"SUCCEEDED", none, some ⟨some "DRIFTED", some "COMPLETED", some 4, some 2⟩,
    none, some "2024-05-01T00:00:00", none⟩

def odFailed : OperationDetails :=
  ⟨"FAILED", some "stop requested", some ⟨some "DRIFTED", none, none, none⟩,
    some ⟨some 1⟩, none, none⟩

def odNoDriftStatus : OperationDetails :=
  ⟨"SUCCEEDED", none, some ⟨none, none, none, none⟩, none, none, none⟩

def odNoDriftDetails : OperationDetails :=
  ⟨"FAILED", none, none, none, none, none⟩

/-! ## Properties of the split machinery -/

theorem pySplitF_ne_nil (sep : List Char) (fuel : Nat) (l : List Char) :
    pySplitF sep fuel l ≠ [] := by
  match fuel, l with
  | 0, l => simp [pySplitF]
  | _ + 1, [] => simp [pySplitF]
  | fuel + 1, c :: cs =>
    rw [pySplitF]
    split
    · simp
    · split <;> simp

theorem pySplitF_fuel_eq (sep : List Char) (hsep : sep ≠ []) :
    ∀ fuel l, l.length ≤ fuel → pySplitF sep fuel l = pySplit sep l := by
  intro fuel
  induction fuel using Nat.strong_induction_on with
  | _ fuel ih =>
    intro l hl
    match fuel, l with
    | 0, l =>
      have : l = [] := List.length_eq_zero.mp (Nat.le_zero.mp hl)
      subst this; rfl
    | fuel + 1, [] => rfl
    | fuel + 1, c :: cs =>
      have hcs : cs.length ≤ fuel := by simpa using hl
      have hdrop : ((c :: cs).drop sep.length).length ≤ cs.length := by
        have h1 : 1 ≤ sep.length := Nat.one_le_iff_ne_zero.mpr (by
          simpa using List.length_eq_zero.not.mpr hsep)
        simp only [List.length_drop, List.length_cons]
        omega
      rw [pySplit, pySplitF, List.length_cons, pySplitF]
      split
      · rw [ih fuel (Nat.lt_succ_self fuel) _ (le_trans hdrop hcs),
          ih cs.length (Nat.lt_succ_of_le hcs) _ hdrop]
      · rw [ih fuel (Nat.lt_succ_self fuel) cs hcs,
          ih cs.length (Nat.lt_succ_of_le hcs) cs le_rfl]

theorem pySplit_nil (sep : List Char) : pySplit sep [] = [[]] := rfl

theorem pySplit_pos (sep : List Char) (hsep : sep ≠ []) (c : Char)
    (cs : List Char) (h : sep.isPrefixOf (c :: cs) = true) :
    pySplit sep (c :: cs) = [] :: pySplit sep ((c :: cs).drop sep.length) := by
  have h1 : 1 ≤ sep.length := Nat.one_le_iff_ne_zero.mpr (by
    simpa using List.length_eq_zero.not.mpr hsep)
  have hdrop : ((c :: cs).drop sep.length).length ≤ cs.length := by
    simp only [List.length_drop, List.length_cons]; omega
  rw [pySplit, List.length_cons, pySplitF, if_pos h,
    pySplitF_fuel_eq sep hsep cs.length _ hdrop]

theorem pySplit_neg (sep : List Char) (hsep : sep ≠ []) (c : Char)
    (cs : List Char) (h : sep.isPrefixOf (c :: cs) = false) :
    pySplit sep (c :: cs) =
      match pySplit sep cs with
      | [] => [[c]]
      | p :: ps => (c :: p) :: ps := by
  rw [pySplit, List.length_cons, pySplitF, if_neg (by simp [h]),
    pySplitF_fuel_eq sep hsep cs.length cs le_rfl]

/-- If `sep` never occurs in `l`, Python's split returns the single part `l`. -/
theorem pySplit_eq_single (sep : List Char) (hsep : sep ≠ []) :
    ∀ l, hasSub sep l = false → pySplit sep l = [l] := by
  intro l
  induction l with
  | nil => intro _; rfl
  | cons c cs ih =>
    intro h
    rw [hasSub, Bool.or_eq_false_iff] at h
    rw [pySplit_neg sep hsep c cs h.1, ih h.2]

theorem hasSub_of_isPrefixOf (pat l : List Char) (hpat : pat ≠ [])
    (h : pat.isPrefixOf l = true) : hasSub pat l = true := by
  match l with
  | [] =>
    exact absurd (List.prefix_nil.mp ( List.isPrefixOf_iff_prefix.mp h)) hpat
  | c :: cs => rw [hasSub, h, Bool.true_or]

/-- The key splitting law: if `sep` has no occurrence strictly before the
distinguished one (no occurrence inside `(pre ++ sep).dropLast`), then
Python's split cuts exactly there. -/
theorem pySplit_append (sep : List Char) (hsep : sep ≠ []) :
    ∀ pre rest, hasSub sep ((pre ++ sep).dropLast) = false →
      pySplit sep (pre ++ sep ++ rest) = pre :: pySplit sep rest := by
  intro pre
  induction pre with
  | nil =>
    intro rest _
    cases sep with
    | nil => exact absurd rfl hsep
    | cons s ss =>
      have hp : (s :: ss).isPrefixOf (s :: (ss ++ rest)) = true := by
        have := List.isPrefixOf_iff_prefix.mpr (List.prefix_append (s :: ss) rest)
        rwa [List.cons_append] at this
      rw [List.nil_append, List.cons_append,
        pySplit_pos (s :: ss) hsep s (ss ++ rest) hp]
      congr 1
      rw [← List.cons_append, List.drop_left]
  | cons p ps ih =>
    intro rest h
    have hne : ps ++ sep ≠ [] := by
      intro hc
      exact hsep (List.append_eq_nil.mp hc).2
    have hdl : ((p :: ps) ++ sep).dropLast = p :: (ps ++ sep).dropLast := by
      match hps : ps ++ sep, hne with
      | q :: qs, _ => rw [List.cons_append, hps]; rfl
    rw [hdl, hasSub, Bool.or_eq_false_iff] at h
    have hpre : sep.isPrefixOf (p :: (ps ++ sep ++ rest)) = false := by
      by_contra hc
      have hc' : sep <+: p :: (ps ++ sep ++ rest) :=
        List.isPrefixOf_iff_prefix.mp (Bool.of_not_eq_false hc)
      have hlen : sep.length ≤ (p :: (ps ++ sep).dropLast).length := by
        have : (ps ++ sep).dropLast.length = ps.length + sep.length - 1 := by
          simp [List.length_dropLast]
        have h1 : 1 ≤ sep.length := Nat.one_le_iff_ne_zero.mpr (by
          simpa using List.length_eq_zero.not.mpr hsep)
        simp only [List.length_cons, this]
        omega
      have hpre2 : (p :: (ps ++ sep).dropLast) <+: p :: (ps ++ sep ++ rest) := by
        have h2 : (ps ++ sep).dropLast <+: ps ++ sep := List.dropLast_prefix _
        have h3 : ps ++ sep <+: ps ++ sep ++ rest := by
          rw [List.append_assoc]
          have := List.prefix_append (ps ++ sep) rest
          rwa [List.append_assoc] at this
        exact (List.cons_prefix_cons).mpr ⟨rfl, h2.trans h3⟩
      have : sep <+: p :: (ps ++ sep).dropLast :=
        List.prefix_of_prefix_length_le hc' hpre2 hlen
      have := hasSub_of_isPrefixOf sep _ hsep
        ( List.isPrefixOf_iff_prefix.mpr this)
      rw [hasSub] at this
      rw [Bool.or_eq_true] at this
      rcases this with h' | h'
      · rw [h.1] at h'; exact Bool.false_ne_true h'
      · rw [h.2] at h'; exact Bool.false_ne_true h'
    rw [List.cons_append, List.cons_append,
      pySplit_neg sep hsep p (ps ++ sep ++ rest) hpre, ih rest h.2]

/-- `pat` occurs in any list that displays it explicitly. -/
theorem hasSub_append_mid (pat l₂ : List Char) :
    ∀ l₁, hasSub pat (l₁ ++ pat ++ l₂) = true := by
  intro l₁
  induction l₁ with
  | nil =>
    match pat with
    | [] =>
      match l₂ with
      | [] => rfl
      | c :: cs => rw [List.nil_append, List.nil_append, hasSub]; simp
    | p :: ps =>
      rw [List.nil_append, List.cons_append, hasSub]
      have : (p :: ps).isPrefixOf ((p :: ps) ++ l₂) = true :=
        List.isPrefixOf_iff_prefix.mpr (List.prefix_append _ _)
      rw [List.cons_append] at this
      rw [this, Bool.true_or]
  | cons a as ih =>
    rw [List.cons_append, List.cons_append, hasSub, ih, Bool.or_true]

theorem pySplit_ne_nil (sep l : List Char) : pySplit sep l ≠ [] :=
  pySplitF_ne_nil sep l.length l

/-! ## Properties of the serialization -/

mutual

/-- `json.dumps(v, default=str)` never fails. -/
theorem dumpsVal_isSome : ∀ v : PyVal, (dumpsVal true v).isSome = true
  | .pynull => rfl
  | .pybool _ => rfl
  | .pyint _ => rfl
  | .pystr _ => rfl
  | .pydatetime _ => rfl
  | .pyobj fs => by
    rw [dumpsVal]
    have h := dumpsFields_isSome fs
    match hfs : dumpsFields true fs with
    | some body => rfl
    | none => rw [hfs] at h; exact absurd h (by simp)

theorem dumpsFields_isSome : ∀ fs : PyFields, (dumpsFields true fs).isSome = true
  | .nil => rfl
  | .cons k v rest => by
    rw [dumpsFields]
    have hv := dumpsVal_isSome v
    have hr := dumpsFields_isSome rest
    match hv2 : dumpsVal true v, hr2 : dumpsFields true rest with
    | some sv, some sr => rfl
    | none, _ => rw [hv2] at hv; exact absurd hv (by simp)
    | some _, none => rw [hr2] at hr; exact absurd hr (by simp)

end

theorem toList_mk (l : List Char) : (String.mk l).toList = l := rfl

/-- Serialization with `default=str` never fails, so `publish_to_topic`
returns exactly what the SNS client returns. -/
theorem publish_to_topic_eq (p : Except String Unit) (s : String) (m : PyVal) :
    publish_to_topic p s m = p := by
  rw [publish_to_topic]
  have h := dumpsVal_isSome (PyVal.pyobj (PyFields.cons "default" m PyFields.nil))
  match hd : dumpsVal true (PyVal.pyobj (PyFields.cons "default" m PyFields.nil)) with
  | some _ => rfl
  | none => rw [hd] at h; exact absurd h (by simp)

/-! ## Properties of the handler -/

/-- Once the event parses, the query succeeds and the drift-details
substructure is present, the handler is the three-way branch of lines 46-91. -/
theorem lambda_handler_branches
    (query : String → String → Except String OperationDetails)
    (p : Except String Unit) (ev : Event) (name opId : String)
    (od : OperationDetails) (ddd : DriftDetectionDetails)
    (h1 : interpret_event ev = some (name, opId))
    (h2 : query name opId = Except.ok od)
    (h3 : od.StackSetDriftDetectionDetails = some ddd) :
    lambda_handler query p ev =
      if od.Status ∈ ["FAILED", "STOPPED"] then
        ⟨[⟨errorSubject name, toPyVal od⟩], pubOutcome p⟩
      else if ddd.DriftStatus ≠ some "IN_SYNC" then
        ⟨[⟨driftedSubject name, toPyVal od⟩], pubOutcome p⟩
      else ⟨[], none⟩ := by
  simp only [lambda_handler, h1, h2, h3, publish_to_topic_eq]
  cases p with
  | ok u => simp [pubOutcome]
  | error e => simp [pubOutcome]

theorem strContains_of_parts (s pre pat suf : String)
    (h : s.toList = pre.toList ++ pat.toList ++ suf.toList) :
    strContains s pat = true := by
  rw [strContains, h]
  exact hasSub_append_mid pat.toList suf.toList pre.toList

theorem errorSubject_contains_tag (name : String) :
    strContains (errorSubject name) "ERROR:" = true := by
  apply strContains_of_parts _ "" "ERROR:"
    (" StackSet " ++ name ++ " drift detection failed")
  simp [errorSubject, String.toList, String.data_append, List.append_assoc]

theorem errorSubject_contains_name (name : String) :
    strContains (errorSubject name) name = true := by
  apply strContains_of_parts _ "ERROR: StackSet " name " drift detection failed"
  simp [errorSubject, String.toList, String.data_append]

theorem driftedSubject_contains_tag (name : String) :
    strContains (driftedSubject name) "DRIFTED:" = true := by
  apply strContains_of_parts _ "" "DRIFTED:"
    (" StackSet " ++ name ++ " is in the drifted state")
  simp [driftedSubject, String.toList, String.data_append, List.append_assoc]

theorem driftedSubject_contains_name (name : String) :
    strContains (driftedSubject name) name = true := by
  apply strContains_of_parts _ "DRIFTED: StackSet " name " is in the drifted state"
  simp [driftedSubject, String.toList, String.data_append]

theorem interpret_sampleEvent :
    interpret_event sampleEvent = some ("demo", "3f1a") := rfl

/-! ## The claims -/

/-- C1 (counterexample): for an operation with `status = SUCCEEDED` whose
drift-details substructure is present but whose `DriftStatus` field is
absent, the handler takes the drift branch — the claim says the outcome is
classified `INDETERMINATE` and in particular not `DRIFT_DETECTED`, but the
code compares `None != "IN_SYNC"`, which is true, classifies the operation
into the drift branch and publishes a `DRIFTED:` notification. -/
theorem C1_counterexample :
    classify odNoDriftStatus ⟨none, none, none, none⟩
        = Classification.DRIFT_DETECTED
    ∧ (lambda_handler (queryReturning odNoDriftStatus) (Except.ok ())
        sampleEvent).attempts
        = [⟨driftedSubject "demo", toPyVal odNoDriftStatus⟩] :=
  ⟨rfl, rfl⟩

/-- C1 (amended): for every operation with `status = SUCCEEDED`, drift
details present and `DriftStatus` absent, the evaluator takes the drift
branch — classifying the outcome as `DRIFT_DETECTED`, not as a separate
`INDETERMINATE` category, which does not exist in the code — and publishes
exactly one `DRIFTED:` notification. -/
theorem C1_absent_driftStatus_drift_branch
    (query : String → String → Except String OperationDetails)
    (p : Except String Unit) (ev : Event) (name opId : String)
    (od : OperationDetails) (ddd : DriftDetectionDetails)
    (h1 : interpret_event ev = some (name, opId))
    (h2 : query name opId = Except.ok od)
    (h3 : od.StackSetDriftDetectionDetails = some ddd)
    (hS : od.Status = "SUCCEEDED")
    (hD : ddd.DriftStatus = none) :
    (lambda_handler query p ev).attempts
      = [⟨driftedSubject name, toPyVal od⟩]
    ∧ classify od ddd = Classification.DRIFT_DETECTED := by
  have hF : ¬ od.Status ∈ ["FAILED", "STOPPED"] := by rw [hS]; decide
  have hD2 : ddd.DriftStatus ≠ some "IN_SYNC" := by rw [hD]; decide
  rw [lambda_handler_branches query p ev name opId od ddd h1 h2 h3,
    if_neg hF, if_pos hD2]
  exact ⟨rfl, by rw [classify, if_neg hF, if_pos hD2]⟩

/-- C1 (witness). -/
theorem C1_witness :
    (lambda_handler (queryReturning odNoDriftStatus) (Except.ok ())
        sampleEvent).attempts
      = [⟨driftedSubject "demo", toPyVal odNoDriftStatus⟩]
    ∧ classify odNoDriftStatus ⟨none, none, none, none⟩
        = Classification.DRIFT_DETECTED :=
  C1_absent_driftStatus_drift_branch (queryReturning odNoDriftStatus)
    (Except.ok ()) sampleEvent "demo" "3f1a" odNoDriftStatus
    ⟨none, none, none, none⟩ rfl rfl rfl rfl rfl

/-- C2: for every operation with status `FAILED` or `STOPPED` (and the
drift-details substructure present, without which line 42 errors first — see
C10), the evaluator takes the failure branch regardless of `DriftStatus`
(here arbitrary, including `DRIFTED` or absent): it publishes exactly one
notification, whose subject contains `"ERROR:"` and the extracted StackSet
name, and never classifies the operation as `DRIFT_DETECTED`. -/
theorem C2_failed_status_error_notification
    (query : String → String → Except String OperationDetails)
    (p : Except String Unit) (ev : Event) (name opId : String)
    (od : OperationDetails) (ddd : DriftDetectionDetails)
    (h1 : interpret_event ev = some (name, opId))
    (h2 : query name opId = Except.ok od)
    (h3 : od.StackSetDriftDetectionDetails = some ddd)
    (hS : od.Status ∈ ["FAILED", "STOPPED"]) :
    (lambda_handler query p ev).attempts = [⟨errorSubject name, toPyVal od⟩]
    ∧ (lambda_handler query p ev).attempts.length = 1
    ∧ strContains (errorSubject name) "ERROR:" = true
    ∧ strContains (errorSubject name) name = true
    ∧ classify od ddd = Classification.OPERATION_FAILED
    ∧ classify od ddd ≠ Classification.DRIFT_DETECTED := by
  rw [lambda_handler_branches query p ev name opId od ddd h1 h2 h3, if_pos hS]
  refine ⟨rfl, rfl, errorSubject_contains_tag name,
    errorSubject_contains_name name, ?_, ?_⟩
  · rw [classify, if_pos hS]
  · rw [classify, if_pos hS]; decide

/-- C2 (witness): `odFailed` has `status = FAILED` together with
`DriftStatus = DRIFTED`, exercising the precedence part of the claim. -/
theorem C2_witness :
    (lambda_handler (queryReturning odFailed) (Except.ok ())
        sampleEvent).attempts = [⟨errorSubject "demo", toPyVal odFailed⟩]
    ∧ (lambda_handler (queryReturning odFailed) (Except.ok ())
        sampleEvent).attempts.length = 1
    ∧ strContains (errorSubject "demo") "ERROR:" = true
    ∧ strContains (errorSubject "demo") "demo" = true
    ∧ classify odFailed ⟨some "DRIFTED", none, none, none⟩
        = Classification.OPERATION_FAILED
    ∧ classify odFailed ⟨some "DRIFTED", none, none, none⟩
        ≠ Classification.DRIFT_DETECTED :=
  C2_failed_status_error_notification (queryReturning odFailed)
    (Except.ok ()) sampleEvent "demo" "3f1a" odFailed
    ⟨some "DRIFTED", none, none, none⟩ rfl rfl rfl (by decide)

/-- C3: for every operation with `status = SUCCEEDED` and
`DriftStatus = IN_SYNC`, the evaluator classifies the outcome as the clean
fall-through and makes zero publish attempts, succeeding silently. -/
theorem C3_in_sync_clean_no_publish
    (query : String → String → Except String OperationDetails)
    (p : Except String Unit) (ev : Event) (name opId : String)
    (od : OperationDetails) (ddd : DriftDetectionDetails)
    (h1 : interpret_event ev = some (name, opId))
    (h2 : query name opId = Except.ok od)
    (h3 : od.StackSetDriftDetectionDetails = some ddd)
    (hS : od.Status = "SUCCEEDED")
    (hD : ddd.DriftStatus = some "IN_SYNC") :
    lambda_handler query p ev = ⟨[], none⟩
    ∧ classify od ddd = Classification.CLEAN := by
  have hF : ¬ od.Status ∈ ["FAILED", "STOPPED"] := by rw [hS]; decide
  have hD2 : ¬ ddd.DriftStatus ≠ some "IN_SYNC" := by rw [hD]; simp
  rw [lambda_handler_branches query p ev name opId od ddd h1 h2 h3,
    if_neg hF, if_neg hD2]
  exact ⟨rfl, by rw [classify, if_neg hF, if_neg hD2]⟩

/-- C3 (witness). -/
theorem C3_witness :
    lambda_handler (queryReturning odInSync) (Except.ok ()) sampleEvent
      = ⟨[], none⟩
    ∧ classify odInSync ⟨some "IN_SYNC", some "COMPLETED", some 4, some 0⟩
        = Classification.CLEAN :=
  C3_in_sync_clean_no_publish (queryReturning odInSync) (Except.ok ())
    sampleEvent "demo" "3f1a" odInSync
    ⟨some "IN_SYNC", some "COMPLETED", some 4, some 0⟩ rfl rfl rfl rfl rfl

/-- C4: for every operation with `status = SUCCEEDED` and
`DriftStatus = DRIFTED`, the evaluator takes the drift branch and publishes
exactly one notification whose subject is the fixed drift template
`"DRIFTED: StackSet <name> is in the drifted state"`, containing `"DRIFTED:"`
and the target name. -/
theorem C4_drifted_notification
    (query : String → String → Except String OperationDetails)
    (p : Except String Unit) (ev : Event) (name opId : String)
    (od : OperationDetails) (ddd : DriftDetectionDetails)
    (h1 : interpret_event ev = some (name, opId))
    (h2 : query name opId = Except.ok od)
    (h3 : od.StackSetDriftDetectionDetails = some ddd)
    (hS : od.Status = "SUCCEEDED")
    (hD : ddd.DriftStatus = some "DRIFTED") :
    (lambda_handler query p ev).attempts
      = [⟨driftedSubject name, toPyVal od⟩]
    ∧ classify od ddd = Classification.DRIFT_DETECTED
    ∧ strContains (driftedSubject name) "DRIFTED:" = true
    ∧ strContains (driftedSubject name) name = true
    ∧ driftedSubject name
        = "DRIFTED: StackSet " ++ name ++ " is in the drifted state" := by
  have hF : ¬ od.Status ∈ ["FAILED", "STOPPED"] := by rw [hS]; decide
  have hD2 : ddd.DriftStatus ≠ some "IN_SYNC" := by rw [hD]; decide
  rw [lambda_handler_branches query p ev name opId od ddd h1 h2 h3,
    if_neg hF, if_pos hD2]
  exact ⟨rfl, by rw [classify, if_neg hF, if_pos hD2],
    driftedSubject_contains_tag name, driftedSubject_contains_name name, rfl⟩

/-- C4 (witness). -/
theorem C4_witness :
    (lambda_handler (queryReturning odDrifted) (Except.ok ())
        sampleEvent).attempts = [⟨driftedSubject "demo", toPyVal odDrifted⟩]
    ∧ classify odDrifted ⟨some "DRIFTED", some "COMPLETED", some 4, some 2⟩
        = Classification.DRIFT_DETECTED
    ∧ strContains (driftedSubject "demo") "DRIFTED:" = true
    ∧ strContains (driftedSubject "demo") "demo" = true
    ∧ driftedSubject "demo"
        = "DRIFTED: StackSet " ++ "demo" ++ " is in the drifted state" :=
  C4_drifted_notification (queryReturning odDrifted) (Except.ok ())
    sampleEvent "demo" "3f1a" odDrifted
    ⟨some "DRIFTED", some "COMPLETED", some 4, some 2⟩ rfl rfl rfl rfl rfl

/-- C5 (counterexample): the claim asserts that every `targetReference` not
matching the documented compound format makes the interpreter fail, but
`"a:stackset/demo"` does not match the format (no secondary delimiter after
the name segment) while the code's extraction still succeeds, returning
`"demo"`: Python's `split(":")[0]` silently returns the whole remainder when
no `":"` follows. -/
theorem C5_counterexample :
    spec_compound_format "a:stackset/demo" = false
    ∧ extract_stackset_name "a:stackset/demo" = some "demo" :=
  ⟨rfl, rfl⟩

/-- C5 (amended): for every `targetReference` of the documented compound
format — a marker-free prefix, the marker `":stackset/"`, a delimiter-free
name, the delimiter `":"` and a remainder — the extracted collection name is
exactly the name segment; when the marker is entirely absent from the
reference, and when the `detail`, `targetReference` or `operationId` field is
absent (so that `interpret_event` fails), the invocation fails with
`MalformedEventError`.  (As the counterexample shows, references that contain
the marker but lack the terminating delimiter are not rejected: the name
extends to the end of the reference.) -/
theorem C5_extraction
    (pre name rest : List Char) (arn : String)
    (query : String → String → Except String OperationDetails)
    (p : Except String Unit) (ev : Event)
    (h1 : hasSub stacksetMarker ((pre ++ stacksetMarker).dropLast) = false)
    (h2 : hasSub stacksetMarker (name ++ ':' :: rest) = false)
    (h3 : hasSub colonSep name = false)
    (h4 : hasSub stacksetMarker arn.toList = false)
    (h5 : interpret_event ev = none) :
    extract_stackset_name
        (String.mk (pre ++ stacksetMarker ++ (name ++ ':' :: rest)))
      = some (String.mk name)
    ∧ extract_stackset_name arn = none
    ∧ lambda_handler query p ev = ⟨[], some EvalError.malformedEvent⟩ := by
  have hM : stacksetMarker ≠ [] := by decide
  have hc : colonSep ≠ [] := by decide
  refine ⟨?_, ?_, ?_⟩
  · rw [extract_stackset_name, toList_mk,
      pySplit_append stacksetMarker hM pre (name ++ ':' :: rest) h1,
      pySplit_eq_single stacksetMarker hM (name ++ ':' :: rest) h2]
    show some (String.mk
      ((pySplit colonSep (name ++ ':' :: rest)).headD []))
      = some (String.mk name)
    have hshape : name ++ ':' :: rest = name ++ colonSep ++ rest := by
      rw [List.append_assoc]; rfl
    have hdrop : hasSub colonSep ((name ++ colonSep).dropLast) = false := by
      show hasSub colonSep ((name ++ [':']).dropLast) = false
      rw [List.dropLast_concat]
      exact h3
    rw [hshape, pySplit_append colonSep hc name rest hdrop]
    rfl
  · rw [extract_stackset_name,
      pySplit_eq_single stacksetMarker hM arn.toList h4]
  · rw [lambda_handler, h5]

/-- C5 (witness): a well-formed StackSet ARN decomposed into the compound
format, whose name segment is correctly extracted. -/
theorem C5_witness :
    extract_stackset_name
        (String.mk (("arn:aws:cloudformation:eu-west-1:123456789012").toList
          ++ stacksetMarker ++ (("demo").toList ++ ':' :: ("3f1a").toList)))
      = some (String.mk ("demo").toList)
    ∧ extract_stackset_name "no-marker-in-here" = none
    ∧ lambda_handler (queryReturning odInSync) (Except.ok ()) ⟨none⟩
        = ⟨[], some EvalError.malformedEvent⟩ :=
  C5_extraction ("arn:aws:cloudformation:eu-west-1:123456789012").toList
    ("demo").toList ("3f1a").toList "no-marker-in-here"
    (queryReturning odInSync) (Except.ok ()) ⟨none⟩
    (by decide) (by decide) (by decide) (by decide) rfl

/-- C6: with the event parsed, the query successful and drift details
present, the publish is attempted exactly once when the classification is
non-clean, zero times when it is clean, and a failing publish surfaces as a
`NotificationError` with still exactly one attempt — no internal retry. -/
theorem C6_publish_policy
    (query : String → String → Except String OperationDetails)
    (p : Except String Unit) (ev : Event) (name opId : String)
    (od : OperationDetails) (ddd : DriftDetectionDetails)
    (h1 : interpret_event ev = some (name, opId))
    (h2 : query name opId = Except.ok od)
    (h3 : od.StackSetDriftDetectionDetails = some ddd) :
    (classify od ddd = Classification.CLEAN →
      lambda_handler query p ev = ⟨[], none⟩)
    ∧ (classify od ddd ≠ Classification.CLEAN →
      (lambda_handler query p ev).attempts.length = 1)
    ∧ (∀ e, p = Except.error e → classify od ddd ≠ Classification.CLEAN →
      (lambda_handler query p ev).outcome
          = some (EvalError.notificationError e)
      ∧ (lambda_handler query p ev).attempts.length = 1) := by
  have hb := lambda_handler_branches query p ev name opId od ddd h1 h2 h3
  by_cases hF : od.Status ∈ ["FAILED", "STOPPED"]
  · have hc : classify od ddd = Classification.OPERATION_FAILED := by
      rw [classify, if_pos hF]
    rw [hb, if_pos hF]
    refine ⟨?_, fun _ => rfl, ?_⟩
    · intro h; rw [hc] at h; exact absurd h (by decide)
    · intro e hp _; subst hp; exact ⟨rfl, rfl⟩
  · by_cases hD : ddd.DriftStatus ≠ some "IN_SYNC"
    · have hc : classify od ddd = Classification.DRIFT_DETECTED := by
        rw [classify, if_neg hF, if_pos hD]
      rw [hb, if_neg hF, if_pos hD]
      refine ⟨?_, fun _ => rfl, ?_⟩
      · intro h; rw [hc] at h; exact absurd h (by decide)
      · intro e hp _; subst hp; exact ⟨rfl, rfl⟩
    · have hc : classify od ddd = Classification.CLEAN := by
        rw [classify, if_neg hF, if_neg hD]
      rw [hb, if_neg hF, if_neg hD]
      exact ⟨fun _ => rfl, fun h => absurd hc h, fun e hp h => absurd hc h⟩

/-- C6 (witness): a drifted operation with a failing SNS publish. -/
theorem C6_witness :
    (classify odDrifted ⟨some "DRIFTED", some "COMPLETED", some 4, some 2⟩
        = Classification.CLEAN →
      lambda_handler (queryReturning odDrifted) (Except.error "throttled")
          sampleEvent = ⟨[], none⟩)
    ∧ (classify odDrifted ⟨some "DRIFTED", some "COMPLETED", some 4, some 2⟩
        ≠ Classification.CLEAN →
      (lambda_handler (queryReturning odDrifted) (Except.error "throttled")
          sampleEvent).attempts.length = 1)
    ∧ (∀ e, (Except.error "throttled" : Except String Unit) = Except.error e →
      classify odDrifted ⟨some "DRIFTED", some "COMPLETED", some 4, some 2⟩
          ≠ Classification.CLEAN →
      (lambda_handler (queryReturning odDrifted) (Except.error "throttled")
          sampleEvent).outcome = some (EvalError.notificationError e)
      ∧ (lambda_handler (queryReturning odDrifted) (Except.error "throttled")
          sampleEvent).attempts.length = 1) :=
  C6_publish_policy (queryReturning odDrifted) (Except.error "throttled")
    sampleEvent "demo" "3f1a" odDrifted
    ⟨some "DRIFTED", some "COMPLETED", some 4, some 2⟩ rfl rfl rfl

/-- C7: when the status query fails, the invocation aborts with that
`QueryError` propagated — not swallowed — and with zero publish attempts:
the result is exactly as if only the failed query had run. -/
theorem C7_query_error_propagates
    (query : String → String → Except String OperationDetails)
    (p : Except String Unit) (ev : Event) (name opId e : String)
    (h1 : interpret_event ev = some (name, opId))
    (h2 : query name opId = Except.error e) :
    lambda_handler query p ev = ⟨[], some (EvalError.queryError e)⟩ := by
  simp [lambda_handler, h1, h2]

/-- C7 (witness). -/
theorem C7_witness :
    lambda_handler (queryFailing "AccessDenied") (Except.ok ()) sampleEvent
      = ⟨[], some (EvalError.queryError "AccessDenied")⟩ :=
  C7_query_error_propagates (queryFailing "AccessDenied") (Except.ok ())
    sampleEvent "demo" "3f1a" "AccessDenied" rfl rfl

/-- C8: serialization with `default=str` is total — it succeeds on every
Python value, including non-primitive `datetime` timestamps on which strict
`json.dumps` fails — and the message body of every publish attempt the
handler makes is the full `operation_details` structure returned by the
query. -/
theorem C8_full_body_total_serialization :
    (∀ v : PyVal, (dumpsVal true v).isSome = true)
    ∧ dumpsVal false (PyVal.pydatetime "2024-05-01T00:00:00") = none
    ∧ (∀ (query : String → String → Except String OperationDetails)
        (p : Except String Unit) (ev : Event) (pub : Publish),
        pub ∈ (lambda_handler query p ev).attempts →
        ∃ name opId od, interpret_event ev = some (name, opId)
          ∧ query name opId = Except.ok od
          ∧ pub.message = toPyVal od) := by
  refine ⟨dumpsVal_isSome, rfl, ?_⟩
  intro q p ev pub hmem
  cases h1 : interpret_event ev with
  | none => simp [lambda_handler, h1] at hmem
  | some pr =>
    obtain ⟨name, opId⟩ := pr
    cases h2 : q name opId with
    | error e => simp [lambda_handler, h1, h2] at hmem
    | ok od =>
      cases h3 : od.StackSetDriftDetectionDetails with
      | none => simp [lambda_handler, h1, h2, h3] at hmem
      | some ddd =>
        rw [lambda_handler_branches q p ev name opId od ddd h1 h2 h3] at hmem
        refine ⟨name, opId, od, rfl, h2, ?_⟩
        by_cases hF : od.Status ∈ ["FAILED", "STOPPED"]
        · rw [if_pos hF] at hmem
          simp only [List.mem_singleton] at hmem
          rw [hmem]
        · rw [if_neg hF] at hmem
          by_cases hD : ddd.DriftStatus ≠ some "IN_SYNC"
          · rw [if_pos hD] at hmem
            simp only [List.mem_singleton] at hmem
            rw [hmem]
          · rw [if_neg hD] at hmem
            simp at hmem

/-- C8 (witness). -/
theorem C8_witness :
    ∃ name opId od, interpret_event sampleEvent = some (name, opId)
      ∧ queryReturning odDrifted name opId = Except.ok od
      ∧ (Publish.mk (driftedSubject "demo") (toPyVal odDrifted)).message
          = toPyVal od :=
  C8_full_body_total_serialization.2.2 (queryReturning odDrifted)
    (Except.ok ()) sampleEvent ⟨driftedSubject "demo", toPyVal odDrifted⟩
    (List.mem_singleton_self _)

/-- C9: the evaluator is a pure function of its inputs, so delivering the
same completion event twice produces the same publish attempts both times:
the duplicate delivery yields duplicated, non-deduplicated notifications and
the second run is unaffected by the first having happened. -/
theorem C9_duplicate_delivery
    (query : String → String → Except String OperationDetails)
    (p : Except String Unit) (ev : Event) :
    invokeAll query p [ev, ev]
      = (lambda_handler query p ev).attempts
        ++ (lambda_handler query p ev).attempts
    ∧ (invokeAll query p [ev, ev]).length
      = 2 * (lambda_handler query p ev).attempts.length := by
  constructor
  · simp [invokeAll]
  · simp [invokeAll, two_mul]

/-- C10: when the drift-details substructure is absent from the operation,
line 42 of `evaluation.py` raises before either classification branch is
reached — even for `FAILED` or `STOPPED` statuses — so no notification of
any kind is published. -/
theorem C10_missing_drift_details_errors
    (query : String → String → Except String OperationDetails)
    (p : Except String Unit) (ev : Event) (name opId : String)
    (od : OperationDetails)
    (h1 : interpret_event ev = some (name, opId))
    (h2 : query name opId = Except.ok od)
    (h3 : od.StackSetDriftDetectionDetails = none) :
    lambda_handler query p ev = ⟨[], some EvalError.keyError⟩ := by
  simp [lambda_handler, h1, h2, h3]

/-- C10 (witness): the operation even has `status = FAILED`, yet no failure
notification is attempted. -/
theorem C10_witness :
    lambda_handler (queryReturning odNoDriftDetails) (Except.ok ()) sampleEvent
      = ⟨[], some EvalError.keyError⟩ :=
  C10_missing_drift_details_errors (queryReturning odNoDriftDetails)
    (Except.ok ()) sampleEvent "demo" "3f1a" odNoDriftDetails rfl rfl rfl

end DriftEval
